import Mathlib

/-!
Shallow embedding of `src/scripts/privacy-obfuscation-controller.py`, the
decision core of the privacy-obfuscation OpenFlow controller: packet
classification, the counter-based obfuscation trigger, randomized
MAC/TTL generation, action-list assembly, flow-rule synthesis, and the
ARP path.  Stateful Python (the per-switch `packet_counter` dict) becomes
explicit state passing; the global `random` module becomes an injected
draw record (`RandSource`); messages sent on the control channel
(`datapath.send_msg`) become an ordered output list.
-/

namespace PrivacyObf

/-- Switch identifier (`datapath.id` in the source). -/
abbrev Dpid := Nat

/-- Ethernet header view as consumed by the handler: addresses (48-bit values)
and the ethertype.  The source reads `eth.ethertype`, `eth.dst`, `eth.src`. -/
structure EthHeader where
  dst : Nat
  src : Nat
  ethertype : Nat
deriving DecidableEq, Repr

/-- IPv4 header view; the handler only tests its presence
(`pkt.get_protocol(ipv4.ipv4)` being non-None), but a parsed header carries
these fields. -/
structure Ipv4Header where
  src : Nat
  dst : Nat
  ttl : Nat
deriving DecidableEq, Repr

/-- TCP header view; the handler reads only `tcp_pkt.dst_port`. -/
structure TcpHeader where
  dst_port : Nat
deriving DecidableEq, Repr

/-- Parsed packet as produced by `packet.Packet(msg.data)`: an ethernet layer,
an optional IPv4 layer, an optional TCP layer, plus the raw bytes
(`msg.data`, used for the packet-out payload). -/
structure ParsedPacket where
  eth : EthHeader
  ip_pkt : Option Ipv4Header
  tcp_pkt : Option TcpHeader
  data : List Nat
deriving DecidableEq, Repr

/-- OpenFlow 1.3 reserved port `OFPP_FLOOD`. -/
def OFPP_FLOOD : Nat := 0xfffffffb

/-- OpenFlow 1.3 reserved port `OFPP_CONTROLLER`. -/
def OFPP_CONTROLLER : Nat := 0xfffffffd

/-- OpenFlow 1.3 `OFPCML_NO_BUFFER` max-len constant. -/
def OFPCML_NO_BUFFER : Nat := 0xffff

/-- OpenFlow 1.3 `OFP_NO_BUFFER` buffer-id constant. -/
def OFP_NO_BUFFER : Nat := 0xffffffff

/-- OpenFlow actions the controller emits.  MAC addresses are modelled as
their list of six octets (the source renders that list as a colon-separated
hex string in `generate_random_mac`). -/
inductive Action where
  | setFieldEthSrc (mac : List Nat)
  | setFieldIpTtl (ttl : Int)
  | setFieldIpv4Dst (addr : String)
  | output (port : Nat) (max_len : Option Nat)
deriving DecidableEq, Repr

/-- Flood action appended at the end of every non-ARP action list and used by
the ARP path (`parser.OFPActionOutput(ofproto.OFPP_FLOOD)`). -/
def floodAction : Action := Action.output OFPP_FLOOD none

/-- Match fields of an `OFPMatch`; `none` means the field is absent
(wildcarded).  `parser.OFPMatch()` with no arguments has all fields absent. -/
structure OFPMatchFields where
  in_port : Option Nat
  eth_type : Option Nat
  ip_proto : Option Nat
  tcp_dst : Option Nat
deriving DecidableEq, Repr

/-- The all-wildcard match `parser.OFPMatch()`. -/
def matchAll : OFPMatchFields :=
  { in_port := none, eth_type := none, ip_proto := none, tcp_dst := none }

/-- An `OFPFlowMod` message as assembled by `add_flow` (apply-actions
instruction around the action list). -/
structure FlowModMsg where
  priority : Nat
  table_id : Nat
  match_fields : OFPMatchFields
  actions : List Action
deriving DecidableEq, Repr

/-- An `OFPPacketOut` message. -/
structure PacketOutMsg where
  buffer_id : Nat
  in_port : Nat
  actions : List Action
  data : Option (List Nat)
deriving DecidableEq, Repr

/-- A message sent to the switch via `datapath.send_msg`, in emission order. -/
inductive OutMsg where
  | flowMod (m : FlowModMsg)
  | packetOut (m : PacketOutMsg)
deriving DecidableEq, Repr

/-- Mutable controller state: the per-switch packet counter dict
(`self.packet_counter`, absent keys modelled as `none`) and the configured
obfuscation interval (`self.obfuscation_interval`). -/
structure ControllerState where
  packet_counter : Dpid → Option Nat
  obfuscation_interval : Nat

/-- Initial controller state as set up in `__init__`: empty counter dict,
interval 100. -/
def initState : ControllerState :=
  { packet_counter := fun _ => none, obfuscation_interval := 100 }

/-- Counter value observed for a switch: the dict entry, or 0 when the switch
has not been seen (the entry is created at 0 on first observation). -/
def counterOf (s : ControllerState) (dpid : Dpid) : Nat :=
  (s.packet_counter dpid).getD 0

/-- Injected randomness: the draws consumed by one packet-in event.
`generate_random_mac` draws three octets via `random.randint(0x00, 0xff)`;
`get_random_ttl` draws one of the three base values via `random.choice`
and an offset via `random.randint(-2, 2)` (encoded as `Fin 5`, value
`ttlOff - 2`). -/
structure RandSource where
  macA : Fin 256
  macB : Fin 256
  macC : Fin 256
  ttlChoice : Fin 3
  ttlOff : Fin 5
deriving DecidableEq, Repr

/-- Embedding of `generate_random_mac`: fixed prefix `02:00:00`, then the
three random octets.  Modelled as the six octets; the source formats them
as a colon-separated lowercase hex string. -/
def generate_random_mac (a b c : Fin 256) : List Nat :=
  [0x02, 0x00, 0x00, a.val, b.val, c.val]

/-- The base TTL values of `get_random_ttl` (`base_values` in the source). -/
def base_values : List Int := [64, 128, 255]

/-- Embedding of `get_random_ttl`: pick a base from `base_values`, add a
variance in `[-2, 2]`, clamp via `max(1, min(255, _))`. -/
def get_random_ttl (choice : Fin 3) (offDraw : Fin 5) : Int :=
  let base := base_values.get ⟨choice.val, choice.isLt⟩
  let variance : Int := (offDraw.val : Int) - 2
  max 1 (min 255 (base + variance))

/-- Embedding of `should_obfuscate`: create the counter entry at 0 when the
switch is unseen, increment it, and report whether the incremented value is a
multiple of the configured interval.  Returns the decision together with the
updated state. -/
def should_obfuscate (s : ControllerState) (dpid : Dpid) : Bool × ControllerState :=
  let cur := (s.packet_counter dpid).getD 0
  let newCount := cur + 1
  let s' : ControllerState :=
    { s with packet_counter := fun d => if d = dpid then some newCount else s.packet_counter d }
  (newCount % s.obfuscation_interval == 0, s')

/-- Embedding of `add_flow` (callers in this core pass no buffer id): build
the `OFPFlowMod` carrying the priority, table id, match and action list. -/
def add_flow (priority table_id : Nat) (m : OFPMatchFields) (actions : List Action) :
    FlowModMsg :=
  { priority := priority, table_id := table_id, match_fields := m, actions := actions }

/-- The table-miss rule installed by `switch_features_handler` on connection:
priority 0, table 0, match-anything, send-to-controller with no buffering. -/
def switch_features_flowmod : FlowModMsg :=
  add_flow 0 0 matchAll [Action.output OFPP_CONTROLLER (some OFPCML_NO_BUFFER)]

/-- Service classification exactly as inlined in `packet_in_handler`:
`service_id = 0`, then for a TCP packet 80 ↦ 1 (HTTP), 443 ↦ 2 (HTTPS),
8080 ↦ 3 (custom). -/
def service_id_of : Option TcpHeader → Nat
  | none => 0
  | some t =>
    if t.dst_port = 80 then 1
    else if t.dst_port = 443 then 2
    else if t.dst_port = 8080 then 3
    else 0

/-- Embedding of `handle_arp`: unconditionally flood the controller-buffered
copy of the packet (buffer id `OFP_NO_BUFFER`, payload `pkt.data`). -/
def handle_arp (in_port : Nat) (pkt : ParsedPacket) : OutMsg :=
  OutMsg.packetOut
    { buffer_id := OFP_NO_BUFFER, in_port := in_port,
      actions := [floodAction], data := some pkt.data }

/-- A packet-in event (`EventOFPPacketIn`): sending switch, ingress port,
buffer id and parsed packet. -/
structure PacketInEvent where
  dpid : Dpid
  in_port : Nat
  buffer_id : Nat
  pkt : ParsedPacket
deriving DecidableEq, Repr

/-- Embedding of `packet_in_handler`.  ARP packets are delegated to
`handle_arp` and the handler returns.  Otherwise: classify by TCP destination
port; for HTTP/HTTPS with an IPv4 header consult `should_obfuscate` (which
increments the counter) and, on a trigger, append the source-MAC rewrite then
the TTL rewrite; append the service-based destination rewrite when an IPv4
header is present; append the flood output; install a priority-1 table-0 rule
when the packet is TCP with a positive service id; finally emit the packet
with the same action list (raw data only when the switch did not buffer). -/
def packet_in_handler (rand : RandSource) (s : ControllerState) (ev : PacketInEvent) :
    ControllerState × List OutMsg :=
  if ev.pkt.eth.ethertype = 0x0806 then
    (s, [handle_arp ev.in_port ev.pkt])
  else
    let service_id := service_id_of ev.pkt.tcp_pkt
    let st : List Action × ControllerState :=
      if (service_id = 1 ∨ service_id = 2) ∧ ev.pkt.ip_pkt.isSome then
        let r := should_obfuscate s ev.dpid
        if r.1 then
          ([Action.setFieldEthSrc (generate_random_mac rand.macA rand.macB rand.macC),
            Action.setFieldIpTtl (get_random_ttl rand.ttlChoice rand.ttlOff)], r.2)
        else ([], r.2)
      else ([], s)
    let routeActs : List Action :=
      if service_id = 1 then
        (if ev.pkt.ip_pkt.isSome then [Action.setFieldIpv4Dst "172.16.0.10"] else [])
      else if service_id = 2 then
        (if ev.pkt.ip_pkt.isSome then [Action.setFieldIpv4Dst "172.16.0.20"] else [])
      else if service_id = 3 then
        (if ev.pkt.ip_pkt.isSome then [Action.setFieldIpv4Dst "172.16.0.30"] else [])
      else []
    let actions := st.1 ++ routeActs ++ [floodAction]
    let flowMods : List OutMsg :=
      match ev.pkt.tcp_pkt with
      | some t =>
        if 0 < service_id then
          [OutMsg.flowMod (add_flow 1 0
            { in_port := some ev.in_port, eth_type := some 0x0800,
              ip_proto := some 6, tcp_dst := some t.dst_port } actions)]
        else []
      | none => []
    let data : Option (List Nat) :=
      if ev.buffer_id = OFP_NO_BUFFER then some ev.pkt.data else none
    (st.2,
     flowMods ++
       [OutMsg.packetOut
         { buffer_id := ev.buffer_id, in_port := ev.in_port,
           actions := actions, data := data }])

/-- Service classes of the data model. -/
inductive ServiceClass where
  | NONE
  | HTTP
  | HTTPS
  | CUSTOM
deriving DecidableEq, Repr

/-- Modelled from the spec's words (§4.2 `classify`), for comparison with the
inlined classification of the source: NONE if no TCP header is present, else
80 ↦ HTTP, 443 ↦ HTTPS, 8080 ↦ CUSTOM, any other port ↦ NONE. -/
def classifySpec (p : ParsedPacket) : ServiceClass :=
  match p.tcp_pkt with
  | none => ServiceClass.NONE
  | some t =>
    if t.dst_port = 80 then ServiceClass.HTTP
    else if t.dst_port = 443 then ServiceClass.HTTPS
    else if t.dst_port = 8080 then ServiceClass.CUSTOM
    else ServiceClass.NONE

/-- Numeric code the source uses for each service class. -/
def serviceCode : ServiceClass → Nat
  | ServiceClass.NONE => 0
  | ServiceClass.HTTP => 1
  | ServiceClass.HTTPS => 2
  | ServiceClass.CUSTOM => 3

/-- Obfuscation rewrites: the two actions appended only when the obfuscation
trigger fires. -/
def is_rewrite : Action → Bool
  | Action.setFieldEthSrc _ => true
  | Action.setFieldIpTtl _ => true
  | _ => false

/-- Flow-mod messages among an output list. -/
def flowModsOf (ms : List OutMsg) : List FlowModMsg :=
  ms.filterMap fun m =>
    match m with
    | OutMsg.flowMod f => some f
    | OutMsg.packetOut _ => none

/-- Packet-out messages among an output list. -/
def packetOutsOf (ms : List OutMsg) : List PacketOutMsg :=
  ms.filterMap fun m =>
    match m with
    | OutMsg.flowMod _ => none
    | OutMsg.packetOut p => some p

/-- An HTTPS packet-in event on a given switch: ethertype IPv4, an IPv4
header, TCP destination port 443, unbuffered. -/
def https_ev (dpid : Dpid) : PacketInEvent :=
  { dpid := dpid, in_port := 1, buffer_id := OFP_NO_BUFFER,
    pkt := { eth := { dst := 0, src := 0, ethertype := 0x0800 },
             ip_pkt := some { src := 0, dst := 0, ttl := 64 },
             tcp_pkt := some { dst_port := 443 },
             data := [] } }

/-- State after `n` consecutive HTTPS packet-in events on switch `dpid`,
starting from the initial state. -/
def run_https (rand : RandSource) (dpid : Dpid) : Nat → ControllerState
  | 0 => initState
  | n + 1 => (packet_in_handler rand (run_https rand dpid n) (https_ev dpid)).1

/-- Whether the `n`-th (1-based) HTTPS packet-in event on switch `dpid`
triggers obfuscation: its emitted packet-out carries a MAC or TTL rewrite. -/
def https_triggered (rand : RandSource) (dpid : Dpid) (n : Nat) : Bool :=
  ((packet_in_handler rand (run_https rand dpid (n - 1)) (https_ev dpid)).2).any
    fun m =>
      match m with
      | OutMsg.packetOut po => po.actions.any is_rewrite
      | OutMsg.flowMod _ => false

/-- A fixed random draw record for concrete evaluations. -/
def rand0 : RandSource :=
  { macA := 0, macB := 0, macC := 0, ttlChoice := 0, ttlOff := 0 }

/-- A non-ARP packet-in event whose packet has neither a TCP nor an IPv4
header (e.g. a plain IPv4-ethertype frame the parser could not take
further), on a previously unseen switch. -/
def bareEv : PacketInEvent :=
  { dpid := 0, in_port := 1, buffer_id := OFP_NO_BUFFER,
    pkt := { eth := { dst := 1, src := 2, ethertype := 0x0800 },
             ip_pkt := none, tcp_pkt := none, data := [0, 1, 2] } }

/-- A controller state in which switch 0 has counter value 99 and the
interval is the default 100. -/
def s99 : ControllerState :=
  { packet_counter := fun d => if d = 0 then some 99 else none,
    obfuscation_interval := 100 }

/-- A packet-in event carrying a TCP packet to destination port 22 (with an
IPv4 header). -/
def ev22 : PacketInEvent :=
  { dpid := 0, in_port := 1, buffer_id := OFP_NO_BUFFER,
    pkt := { eth := { dst := 1, src := 2, ethertype := 0x0800 },
             ip_pkt := some { src := 0, dst := 0, ttl := 64 },
             tcp_pkt := some { dst_port := 22 }, data := [5] } }

/-- An ARP packet-in event. -/
def arpEv : PacketInEvent :=
  { dpid := 0, in_port := 3, buffer_id := 7,
    pkt := { eth := { dst := 1, src := 2, ethertype := 0x0806 },
             ip_pkt := none, tcp_pkt := none, data := [9, 9] } }

/-- A packet-in event carrying a TCP packet to destination port 8080 with no
IPv4 header. -/
def ev8080 : PacketInEvent :=
  { dpid := 0, in_port := 2, buffer_id := OFP_NO_BUFFER,
    pkt := { eth := { dst := 1, src := 2, ethertype := 0x0800 },
             ip_pkt := none,
             tcp_pkt := some { dst_port := 8080 }, data := [4, 4] } }

/-! ## Helper lemmas -/

/-- Incrementing behaviour of `should_obfuscate` on the queried switch. -/
theorem should_obfuscate_counter (s : ControllerState) (d : Dpid) :
    counterOf (should_obfuscate s d).2 d = counterOf s d + 1 := by
  simp [should_obfuscate, counterOf]

/-- Frame property of `should_obfuscate`: other switches' entries are
untouched. -/
theorem should_obfuscate_frame (s : ControllerState) (d d' : Dpid) (h : d' ≠ d) :
    (should_obfuscate s d).2.packet_counter d' = s.packet_counter d' := by
  simp [should_obfuscate, h]

/-- The interval is untouched by `should_obfuscate`. -/
theorem should_obfuscate_interval (s : ControllerState) (d : Dpid) :
    (should_obfuscate s d).2.obfuscation_interval = s.obfuscation_interval := rfl

/-- Decision value of `should_obfuscate` in terms of the observed counter. -/
theorem should_obfuscate_fired (s : ControllerState) (d : Dpid) :
    (should_obfuscate s d).1 = ((counterOf s d + 1) % s.obfuscation_interval == 0) := rfl

/-- Characterization of service ids 1 and 2 (HTTP/HTTPS) by the TCP
destination port. -/
theorem service_id_http_or_https (o : Option TcpHeader) :
    (service_id_of o = 1 ∨ service_id_of o = 2) ↔
      ∃ t, o = some t ∧ (t.dst_port = 80 ∨ t.dst_port = 443) := by
  cases o with
  | none => simp [service_id_of]
  | some t =>
    simp only [service_id_of, Option.some.injEq]
    split_ifs with h1 h2 h3 <;> simp_all

/-- Characterization of a positive service id by the TCP destination port. -/
theorem service_id_pos_iff (o : Option TcpHeader) :
    0 < service_id_of o ↔
      ∃ t, o = some t ∧ (t.dst_port = 80 ∨ t.dst_port = 443 ∨ t.dst_port = 8080) := by
  cases o with
  | none => simp [service_id_of]
  | some t =>
    simp only [service_id_of, Option.some.injEq]
    split_ifs with h1 h2 h3 <;> simp_all

/-- ARP branch of the packet-in handler: state unchanged, one flood
packet-out of the buffered copy. -/
theorem packet_in_arp_eq (rand : RandSource) (s : ControllerState) (ev : PacketInEvent)
    (h : ev.pkt.eth.ethertype = 0x0806) :
    packet_in_handler rand s ev =
      (s, [OutMsg.packetOut
            { buffer_id := OFP_NO_BUFFER, in_port := ev.in_port,
              actions := [floodAction], data := some ev.pkt.data }]) := by
  simp [packet_in_handler, handle_arp, h]

/-- State component of the packet-in handler in the non-ARP case: the counter
dict is touched (via `should_obfuscate`) exactly when the packet is HTTP/HTTPS
with an IPv4 header. -/
theorem packet_in_state_eq (rand : RandSource) (s : ControllerState) (ev : PacketInEvent)
    (h : ev.pkt.eth.ethertype ≠ 0x0806) :
    (packet_in_handler rand s ev).1 =
      if (service_id_of ev.pkt.tcp_pkt = 1 ∨ service_id_of ev.pkt.tcp_pkt = 2)
          ∧ ev.pkt.ip_pkt.isSome
      then (should_obfuscate s ev.dpid).2 else s := by
  by_cases hc : (service_id_of ev.pkt.tcp_pkt = 1 ∨ service_id_of ev.pkt.tcp_pkt = 2)
      ∧ ev.pkt.ip_pkt.isSome
  · cases hr : (should_obfuscate s ev.dpid).1 <;>
      simp [packet_in_handler, if_neg h, if_pos hc, hr]
  · simp [packet_in_handler, if_neg h, if_neg hc]

/-- Non-ARP branch with an unclassified packet (service id 0): state
unchanged and a single flood-only packet-out. -/
theorem packet_in_unclassified_eq (rand : RandSource) (s : ControllerState)
    (ev : PacketInEvent) (h : ev.pkt.eth.ethertype ≠ 0x0806)
    (hsid : service_id_of ev.pkt.tcp_pkt = 0) :
    packet_in_handler rand s ev =
      (s, [OutMsg.packetOut
            { buffer_id := ev.buffer_id, in_port := ev.in_port,
              actions := [floodAction],
              data := if ev.buffer_id = OFP_NO_BUFFER
                      then some ev.pkt.data else none }]) := by
  cases htcp : ev.pkt.tcp_pkt with
  | none => simp [packet_in_handler, h, htcp, service_id_of]
  | some t =>
    have hsid' : service_id_of (some t) = 0 := htcp ▸ hsid
    simp [packet_in_handler, h, htcp, hsid']

/-- Full characterization of a packet-in on an HTTPS event: the state is
updated by `should_obfuscate`, and a priority-1 rule plus a packet-out are
emitted, both with rewrites exactly when the trigger fired followed by the
backend-B rewrite and the flood. -/
theorem https_step (rand : RandSource) (s : ControllerState) (dpid : Dpid) :
    packet_in_handler rand s (https_ev dpid) =
      ((should_obfuscate s dpid).2,
       [OutMsg.flowMod (add_flow 1 0
           { in_port := some 1, eth_type := some 0x0800,
             ip_proto := some 6, tcp_dst := some 443 }
           ((if (should_obfuscate s dpid).1 then
               [Action.setFieldEthSrc (generate_random_mac rand.macA rand.macB rand.macC),
                Action.setFieldIpTtl (get_random_ttl rand.ttlChoice rand.ttlOff)]
             else []) ++ [Action.setFieldIpv4Dst "172.16.0.20", floodAction])),
        OutMsg.packetOut
          { buffer_id := OFP_NO_BUFFER, in_port := 1,
            actions :=
              (if (should_obfuscate s dpid).1 then
                [Action.setFieldEthSrc (generate_random_mac rand.macA rand.macB rand.macC),
                 Action.setFieldIpTtl (get_random_ttl rand.ttlChoice rand.ttlOff)]
               else []) ++ [Action.setFieldIpv4Dst "172.16.0.20", floodAction],
            data := some [] }]) := by
  cases hr : (should_obfuscate s dpid).1 <;>
    simp [packet_in_handler, https_ev, service_id_of, hr, add_flow]

/-- The obfuscation interval stays at the default 100 along an HTTPS run. -/
theorem run_https_interval (rand : RandSource) (dpid : Dpid) :
    ∀ n : Nat, (run_https rand dpid n).obfuscation_interval = 100 := by
  intro n
  induction n with
  | zero => rfl
  | succ n ih =>
    show (packet_in_handler rand (run_https rand dpid n) (https_ev dpid)).1.obfuscation_interval
        = 100
    rw [https_step]
    show (should_obfuscate (run_https rand dpid n) dpid).2.obfuscation_interval = 100
    rw [should_obfuscate_interval]
    exact ih

/-- The counter of the driven switch equals the number of HTTPS events
handled so far. -/
theorem run_https_counter (rand : RandSource) (dpid : Dpid) :
    ∀ n : Nat, counterOf (run_https rand dpid n) dpid = n := by
  intro n
  induction n with
  | zero => rfl
  | succ n ih =>
    show counterOf (packet_in_handler rand (run_https rand dpid n) (https_ev dpid)).1 dpid
        = n + 1
    rw [https_step]
    show counterOf (should_obfuscate (run_https rand dpid n) dpid).2 dpid = n + 1
    rw [should_obfuscate_counter, ih]

/-- The `n`-th (1-based) HTTPS event carries obfuscation rewrites exactly when
`n` is a multiple of 100. -/
theorem https_triggered_eq (rand : RandSource) (dpid : Dpid) (n : Nat) (h : 1 ≤ n) :
    https_triggered rand dpid n = (n % 100 == 0) := by
  have hf : (should_obfuscate (run_https rand dpid (n - 1)) dpid).1 = (n % 100 == 0) := by
    rw [should_obfuscate_fired, run_https_counter, run_https_interval]
    congr 1
    omega
  unfold https_triggered
  rw [https_step, hf]
  cases hb : (n % 100 == 0) <;> simp [hb, is_rewrite, floodAction]

/-! ## Claim theorems -/

/-- C5: `get_random_ttl` always returns a value in [1,255] and never 0, for
every random draw; its result equals `clamp(base + offset, 1, 255)` with the
base drawn from {64, 128, 255} and the offset from the integer range
[-2, 2]. -/
theorem getRandomTtl_range_and_clamp :
    ∀ (c : Fin 3) (v : Fin 5),
      (1 ≤ get_random_ttl c v ∧ get_random_ttl c v ≤ 255 ∧ get_random_ttl c v ≠ 0) ∧
      ∃ base offset : Int, base ∈ base_values ∧ -2 ≤ offset ∧ offset ≤ 2 ∧
        get_random_ttl c v = max 1 (min 255 (base + offset)) := by
  intro c v
  constructor
  · simp only [get_random_ttl]
    omega
  · refine ⟨base_values.get ⟨c.val, c.isLt⟩, (v.val : Int) - 2, ?_, ?_, ?_, rfl⟩
    · exact base_values.get_mem c.val c.isLt
    · omega
    · have := v.isLt
      omega

/-- C6: `generate_random_mac` always yields six octets with first octet 0x02
and second and third octets 0x00; only the last three octets vary, each in
[0, 255]. -/
theorem generateRandomMac_fixed_prefix :
    ∀ a b c : Fin 256,
      generate_random_mac a b c = [0x02, 0x00, 0x00, a.val, b.val, c.val] ∧
      (generate_random_mac a b c).length = 6 ∧
      (generate_random_mac a b c).get? 0 = some 0x02 ∧
      (generate_random_mac a b c).get? 1 = some 0x00 ∧
      (generate_random_mac a b c).get? 2 = some 0x00 ∧
      a.val ≤ 255 ∧ b.val ≤ 255 ∧ c.val ≤ 255 := by
  intro a b c
  have ha := a.isLt
  have hb := b.isLt
  have hc := c.isLt
  refine ⟨rfl, rfl, rfl, rfl, rfl, ?_, ?_, ?_⟩ <;> omega

/-- C7: the inlined service classification of the handler agrees with the
spec's `classify`: NONE without a TCP header, else 80 ↦ HTTP, 443 ↦ HTTPS,
8080 ↦ CUSTOM, any other port ↦ NONE; and classification is deterministic
(identical parsed packets classify identically). -/
theorem classification_matches_spec :
    ∀ p : ParsedPacket,
      service_id_of p.tcp_pkt = serviceCode (classifySpec p) ∧
      (p.tcp_pkt = none → classifySpec p = ServiceClass.NONE) ∧
      (∀ t, p.tcp_pkt = some t →
        classifySpec p =
          (if t.dst_port = 80 then ServiceClass.HTTP
           else if t.dst_port = 443 then ServiceClass.HTTPS
           else if t.dst_port = 8080 then ServiceClass.CUSTOM
           else ServiceClass.NONE)) ∧
      (∀ q : ParsedPacket, p = q →
        classifySpec p = classifySpec q ∧
        service_id_of p.tcp_pkt = service_id_of q.tcp_pkt) := by
  intro p
  refine ⟨?_, ?_, ?_, ?_⟩
  · cases h : p.tcp_pkt with
    | none => simp [service_id_of, classifySpec, serviceCode, h]
    | some t =>
      simp only [service_id_of, classifySpec, h]
      split_ifs <;> rfl
  · intro h
    simp [classifySpec, h]
  · intro t h
    simp [classifySpec, h]
  · intro q hq
    rw [hq]
    exact ⟨rfl, rfl⟩

/-- Witness for C7 at a concrete HTTPS packet. -/
theorem classification_matches_spec_witness :
    classifySpec (https_ev 0).pkt = ServiceClass.HTTPS ∧
    service_id_of (https_ev 0).pkt.tcp_pkt = 2 := by
  have h := classification_matches_spec (https_ev 0).pkt
  have h3 := h.2.2.1 { dst_port := 443 } rfl
  refine ⟨by rw [h3]; simp, ?_⟩
  rw [h.1, h3]
  simp [serviceCode]

/-- C1 (counterexample to the claim as stated): a non-ARP packet-in event
with neither a TCP nor an IPv4 header does not increment the sending switch's
counter — so the counter does not increase "regardless of service class or
IPv4 presence". -/
theorem counter_not_incremented_on_bare :
    bareEv.pkt.eth.ethertype ≠ 0x0806 ∧
    ¬ (counterOf (packet_in_handler rand0 initState bareEv).1 bareEv.dpid =
        counterOf initState bareEv.dpid + 1) := by
  constructor
  · decide
  · decide

/-- C1 (amended): on a non-ARP packet-in event, the sending switch's counter
grows by exactly one precisely when the packet has a TCP header with
destination port 80 or 443 and an IPv4 header is present (the entry is
created at 0 on first observation of that switch); in every other case the
whole controller state, the counter included, is unchanged. -/
theorem counter_increment_characterization (rand : RandSource) (s : ControllerState)
    (ev : PacketInEvent) (h : ev.pkt.eth.ethertype ≠ 0x0806) :
    ((∃ t, ev.pkt.tcp_pkt = some t ∧ (t.dst_port = 80 ∨ t.dst_port = 443))
        ∧ ev.pkt.ip_pkt.isSome →
      counterOf (packet_in_handler rand s ev).1 ev.dpid = counterOf s ev.dpid + 1 ∧
      ∀ d, d ≠ ev.dpid →
        (packet_in_handler rand s ev).1.packet_counter d = s.packet_counter d) ∧
    (¬ ((∃ t, ev.pkt.tcp_pkt = some t ∧ (t.dst_port = 80 ∨ t.dst_port = 443))
        ∧ ev.pkt.ip_pkt.isSome) →
      (packet_in_handler rand s ev).1 = s) := by
  rw [packet_in_state_eq rand s ev h]
  constructor
  · intro hc
    have hc' : (service_id_of ev.pkt.tcp_pkt = 1 ∨ service_id_of ev.pkt.tcp_pkt = 2)
        ∧ ev.pkt.ip_pkt.isSome :=
      ⟨(service_id_http_or_https _).mpr hc.1, hc.2⟩
    rw [if_pos hc']
    exact ⟨should_obfuscate_counter s ev.dpid,
           fun d hd => should_obfuscate_frame s ev.dpid d hd⟩
  · intro hc
    rw [if_neg fun hcc => hc ⟨(service_id_http_or_https _).mp hcc.1, hcc.2⟩]

/-- Witness for C1 (amended): the first HTTPS event on a fresh switch takes
its counter from 0 to 1. -/
theorem counter_increment_characterization_witness :
    counterOf (packet_in_handler rand0 initState (https_ev 0)).1 0 =
      counterOf initState 0 + 1 :=
  ((counter_increment_characterization rand0 initState (https_ev 0) (by decide)).1
    ⟨⟨{ dst_port := 443 }, rfl, Or.inr rfl⟩, rfl⟩).1

/-- C3: `should_obfuscate` reports true iff the just-incremented counter is a
multiple of the configured interval; hence on a fresh switch driven by HTTPS
events, the `n`-th event triggers obfuscation exactly when `n` is a positive
multiple of 100, and the `(n-1)`-th and `(n+1)`-th events do not. -/
theorem obfuscation_cadence :
    (∀ (s : ControllerState) (d : Dpid),
      (should_obfuscate s d).1 = true ↔
        counterOf (should_obfuscate s d).2 d % s.obfuscation_interval = 0) ∧
    (∀ (rand : RandSource) (dpid : Dpid) (n : Nat), 1 ≤ n →
      (https_triggered rand dpid n = true ↔ 100 ∣ n) ∧
      (100 ∣ n → https_triggered rand dpid (n - 1) = false ∧
                 https_triggered rand dpid (n + 1) = false)) := by
  constructor
  · intro s d
    rw [should_obfuscate_fired, should_obfuscate_counter]
    exact beq_iff_eq
  · intro rand dpid n hn
    constructor
    · rw [https_triggered_eq rand dpid n hn]
      rw [beq_iff_eq]
      omega
    · intro hdvd
      have h100 : 100 ≤ n := Nat.le_of_dvd (by omega) hdvd
      constructor
      · rw [https_triggered_eq rand dpid (n - 1) (by omega)]
        rw [beq_eq_false_iff_ne]
        omega
      · rw [https_triggered_eq rand dpid (n + 1) (by omega)]
        rw [beq_eq_false_iff_ne]
        omega

/-- Witness for C3: on switch 0 the 100th HTTPS event triggers obfuscation
while the 99th and 101st do not. -/
theorem obfuscation_cadence_witness :
    https_triggered rand0 0 100 = true ∧
    https_triggered rand0 0 99 = false ∧
    https_triggered rand0 0 101 = false := by
  have h := obfuscation_cadence.2 rand0 0 100 (by omega)
  exact ⟨h.1.mpr (dvd_refl 100), h.2 (dvd_refl 100)⟩

/-- C9: an ARP packet-in event leaves the whole controller state (all
counters included) unchanged, installs no rule, and emits exactly one
unconditional flood of the controller-buffered copy of the packet. -/
theorem arp_no_state_change_floods (rand : RandSource) (s : ControllerState)
    (ev : PacketInEvent) (h : ev.pkt.eth.ethertype = 0x0806) :
    (packet_in_handler rand s ev).1 = s ∧
    (packet_in_handler rand s ev).2 =
      [OutMsg.packetOut
        { buffer_id := OFP_NO_BUFFER, in_port := ev.in_port,
          actions := [floodAction], data := some ev.pkt.data }] := by
  rw [packet_in_arp_eq rand s ev h]
  exact ⟨rfl, rfl⟩

/-- Witness for C9 at a concrete ARP event. -/
theorem arp_no_state_change_floods_witness :
    (packet_in_handler rand0 initState arpEv).1 = initState ∧
    (packet_in_handler rand0 initState arpEv).2 =
      [OutMsg.packetOut
        { buffer_id := OFP_NO_BUFFER, in_port := arpEv.in_port,
          actions := [floodAction], data := some arpEv.pkt.data }] :=
  arp_no_state_change_floods rand0 initState arpEv rfl

/-- C2: a packet-in with a TCP packet to port 443 and an IPv4 header, on a
switch whose counter reaches exactly 100 at this event (pre-event value 99,
interval 100), yields exactly four actions in order — source-MAC rewrite,
TTL rewrite, destination rewrite to 172.16.0.20, flood — and installs a rule
with that very action list at priority 1, table 0. -/
theorem https_hundredth_packet_actions (rand : RandSource) (s : ControllerState)
    (ev : PacketInEvent) (t : TcpHeader)
    (heth : ev.pkt.eth.ethertype = 0x0800)
    (htcp : ev.pkt.tcp_pkt = some t) (hport : t.dst_port = 443)
    (hip : ev.pkt.ip_pkt.isSome)
    (hint : s.obfuscation_interval = 100)
    (hcnt : counterOf s ev.dpid = 99) :
    counterOf (packet_in_handler rand s ev).1 ev.dpid = 100 ∧
    (packet_in_handler rand s ev).2 =
      [OutMsg.flowMod (add_flow 1 0
          { in_port := some ev.in_port, eth_type := some 0x0800,
            ip_proto := some 6, tcp_dst := some 443 }
          [Action.setFieldEthSrc (generate_random_mac rand.macA rand.macB rand.macC),
           Action.setFieldIpTtl (get_random_ttl rand.ttlChoice rand.ttlOff),
           Action.setFieldIpv4Dst "172.16.0.20", floodAction]),
       OutMsg.packetOut
         { buffer_id := ev.buffer_id, in_port := ev.in_port,
           actions :=
             [Action.setFieldEthSrc (generate_random_mac rand.macA rand.macB rand.macC),
              Action.setFieldIpTtl (get_random_ttl rand.ttlChoice rand.ttlOff),
              Action.setFieldIpv4Dst "172.16.0.20", floodAction],
           data := if ev.buffer_id = OFP_NO_BUFFER then some ev.pkt.data else none }] := by
  have hfire : (should_obfuscate s ev.dpid).1 = true := by
    rw [should_obfuscate_fired, hcnt, hint]
    rfl
  have hcnt' : counterOf (should_obfuscate s ev.dpid).2 ev.dpid = 100 := by
    rw [should_obfuscate_counter, hcnt]
  constructor
  · rw [packet_in_state_eq rand s ev (by rw [heth]; decide)]
    rw [if_pos ⟨Or.inr (by simp [service_id_of, htcp, hport]), hip⟩]
    exact hcnt'
  · simp [packet_in_handler, heth, htcp, hport, hip, service_id_of, hfire, add_flow]

/-- Witness for C2: concrete event on a switch whose stored counter is 99. -/
theorem https_hundredth_packet_actions_witness :
    counterOf s99 0 = 99 ∧
    counterOf (packet_in_handler rand0 s99 (https_ev 0)).1 0 = 100 :=
  ⟨rfl,
   (https_hundredth_packet_actions rand0 s99 (https_ev 0) { dst_port := 443 }
      rfl rfl rfl rfl rfl rfl).1⟩

/-- C8: every packet-in event completes (the handler is a total function)
and emits the triggering packet: exactly one packet-out is present among the
outputs and every emitted packet-out's action list contains the flood
action, whether or not IPv4/TCP headers are present. -/
theorem packet_in_always_floods (rand : RandSource) (s : ControllerState)
    (ev : PacketInEvent) :
    (∃ po, OutMsg.packetOut po ∈ (packet_in_handler rand s ev).2) ∧
    (∀ po, OutMsg.packetOut po ∈ (packet_in_handler rand s ev).2 →
      floodAction ∈ po.actions) := by
  by_cases h : ev.pkt.eth.ethertype = 0x0806
  · rw [packet_in_arp_eq rand s ev h]
    constructor
    · exact ⟨_, List.mem_singleton.mpr rfl⟩
    · intro po hpo
      simp only [List.mem_singleton, OutMsg.packetOut.injEq] at hpo
      rw [hpo]
      exact List.mem_singleton.mpr rfl
  · simp only [packet_in_handler, if_neg h]
    constructor
    · exact ⟨_, List.mem_append_right _ (List.mem_singleton.mpr rfl)⟩
    · intro po hpo
      rcases List.mem_append.mp hpo with hL | hR
      · exfalso
        split at hL
        · split at hL
          · simp at hL
          · simp at hL
        · simp at hL
      · simp only [List.mem_singleton, OutMsg.packetOut.injEq] at hR
        rw [hR]
        exact List.mem_append_right _ (List.mem_singleton.mpr rfl)

/-- Witness for C8: the flood action is in the packet-out emitted for a
packet with neither TCP nor IPv4 headers. -/
theorem packet_in_always_floods_witness :
    floodAction ∈
      ({ buffer_id := OFP_NO_BUFFER, in_port := 1, actions := [floodAction],
         data := some [0, 1, 2] } : PacketOutMsg).actions :=
  (packet_in_always_floods rand0 initState bareEv).2 _ (by decide)

/-- C4: a flow rule is installed only for a TCP packet whose destination
port is 80, 443 or 8080, always at priority 1, which exceeds the priority-0
table-miss rule installed at connection time; and a TCP packet to port 22
never installs a rule, never touches the counter, and carries no obfuscation
rewrite (its action list is exactly the flood). -/
theorem rule_install_invariant (rand : RandSource) (s : ControllerState)
    (ev : PacketInEvent) :
    (∀ fm, OutMsg.flowMod fm ∈ (packet_in_handler rand s ev).2 →
      fm.priority = 1 ∧ switch_features_flowmod.priority < fm.priority ∧
      ∃ t, ev.pkt.tcp_pkt = some t ∧
        (t.dst_port = 80 ∨ t.dst_port = 443 ∨ t.dst_port = 8080)) ∧
    (∀ t, ev.pkt.tcp_pkt = some t → t.dst_port = 22 →
      (∀ fm, OutMsg.flowMod fm ∉ (packet_in_handler rand s ev).2) ∧
      (packet_in_handler rand s ev).1 = s ∧
      (∀ po, OutMsg.packetOut po ∈ (packet_in_handler rand s ev).2 →
        po.actions = [floodAction])) := by
  constructor
  · intro fm hfm
    by_cases h : ev.pkt.eth.ethertype = 0x0806
    · rw [packet_in_arp_eq rand s ev h] at hfm
      simp at hfm
    · simp only [packet_in_handler, if_neg h] at hfm
      rcases List.mem_append.mp hfm with hL | hR
      · split at hL
        case _ t heq =>
          split at hL
          case isTrue hpos =>
            simp only [List.mem_singleton, OutMsg.flowMod.injEq] at hL
            subst hL
            exact ⟨rfl, Nat.zero_lt_one, (service_id_pos_iff ev.pkt.tcp_pkt).mp hpos⟩
          case isFalse => simp at hL
        case _ => simp at hL
      · simp at hR
  · intro t ht h22
    have hsid : service_id_of ev.pkt.tcp_pkt = 0 := by
      simp [service_id_of, ht, h22]
    by_cases h : ev.pkt.eth.ethertype = 0x0806
    · rw [packet_in_arp_eq rand s ev h]
      refine ⟨fun fm hfm => by simp at hfm, rfl, fun po hpo => ?_⟩
      simp only [List.mem_singleton, OutMsg.packetOut.injEq] at hpo
      rw [hpo]
    · rw [packet_in_unclassified_eq rand s ev h hsid]
      refine ⟨fun fm hfm => by simp at hfm, rfl, fun po hpo => ?_⟩
      simp only [List.mem_singleton, OutMsg.packetOut.injEq] at hpo
      rw [hpo]

/-- Witness for C4: a TCP packet to port 22 leaves the state unchanged. -/
theorem rule_install_invariant_witness :
    (packet_in_handler rand0 initState ev22).1 = initState :=
  ((rule_install_invariant rand0 initState ev22).2 { dst_port := 22 } rfl rfl).2.1

/-- C10: a TCP packet to port 80, 443 or 8080 without an IPv4 header still
installs a priority-1 table-0 rule matching ingress port, ethertype IPv4,
protocol TCP and that destination port, and both the rule's and the emitted
packet's action lists are exactly the single flood action; the state is
unchanged. -/
theorem tcp_no_ipv4_rule_flood_only (rand : RandSource) (s : ControllerState)
    (ev : PacketInEvent) (t : TcpHeader)
    (heth : ev.pkt.eth.ethertype ≠ 0x0806)
    (htcp : ev.pkt.tcp_pkt = some t)
    (hport : t.dst_port = 80 ∨ t.dst_port = 443 ∨ t.dst_port = 8080)
    (hip : ev.pkt.ip_pkt = none) :
    (packet_in_handler rand s ev).2 =
      [OutMsg.flowMod (add_flow 1 0
          { in_port := some ev.in_port, eth_type := some 0x0800,
            ip_proto := some 6, tcp_dst := some t.dst_port } [floodAction]),
       OutMsg.packetOut
         { buffer_id := ev.buffer_id, in_port := ev.in_port,
           actions := [floodAction],
           data := if ev.buffer_id = OFP_NO_BUFFER then some ev.pkt.data else none }] ∧
    (packet_in_handler rand s ev).1 = s := by
  rcases hport with hp | hp | hp <;>
    simp [packet_in_handler, heth, htcp, hip, service_id_of, hp, add_flow]

/-- Witness for C10 at a concrete port-8080 event without an IPv4 header. -/
theorem tcp_no_ipv4_rule_flood_only_witness :
    (packet_in_handler rand0 initState ev8080).2 =
      [OutMsg.flowMod (add_flow 1 0
          { in_port := some 2, eth_type := some 0x0800,
            ip_proto := some 6, tcp_dst := some 8080 } [floodAction]),
       OutMsg.packetOut
         { buffer_id := OFP_NO_BUFFER, in_port := 2,
           actions := [floodAction], data := some [4, 4] }] := by
  have h := (tcp_no_ipv4_rule_flood_only rand0 initState ev8080 { dst_port := 8080 }
    (by decide) rfl (Or.inr (Or.inr rfl)) rfl).1
  simpa using h

end PrivacyObf
